import Mathlib

/-!
Verification of the configuration model and validation engine of
`pki-playground` (`src/config.rs`).

The Rust data types are embedded as Lean structures and inductives, and the
post-parse portion of `load_and_validate` (lines 318-407 of `config.rs`) is
embedded as `validate : Document → Except String Document`.  Error values are
the exact message strings the Rust code produces with `miette::bail!`.
-/

namespace PkiPlayground

/-- `RsaKeyConfig` from `config.rs`: RSA key parameters. -/
structure RsaKeyConfig where
  num_bits : Nat
  public_exponent : Nat
deriving DecidableEq, Repr

/-- `KeyType` from `config.rs`. -/
inductive KeyType where
  | Rsa (config : RsaKeyConfig)
  | P384
  | Ed25519
deriving DecidableEq, Repr

/-- `KeyPair` from `config.rs`: a named key pair with a list of key types
(the decoder permits any number; validation requires exactly one). -/
structure KeyPair where
  name : String
  key_type : List KeyType
deriving DecidableEq, Repr

/-- `EntityNameComponent` from `config.rs`. -/
inductive EntityNameComponent where
  | CountryName (value : String)
  | StateOrProvinceName (value : String)
  | LocalityName (value : String)
  | OrganizationName (value : String)
  | OrganizationalUnitName (value : String)
deriving DecidableEq, Repr

/-- `Entity` from `config.rs`. -/
structure Entity where
  name : String
  common_name : String
  base_dn : List EntityNameComponent
deriving DecidableEq, Repr

/-- `DigestAlgorithm` from `config.rs`. -/
inductive DigestAlgorithm where
  | Sha_256
  | Sha_384
  | Sha_512
deriving DecidableEq, Repr

/-- `BasicConstraintsExtension` from `config.rs` (`path_len` is a `u8` in
Rust; only its presence matters to the model). -/
structure BasicConstraintsExtension where
  critical : Bool
  ca : Bool
  path_len : Option Nat
deriving DecidableEq, Repr

/-- `KeyUsageExtension` from `config.rs`. -/
structure KeyUsageExtension where
  critical : Bool
  digital_signature : Bool
  non_repudiation : Bool
  key_encipherment : Bool
  data_encipherment : Bool
  key_agreement : Bool
  key_cert_sign : Bool
  crl_sign : Bool
  encipher_only : Bool
  decipher_only : Bool
deriving DecidableEq, Repr

/-- `ExtendedKeyUsageExtension` from `config.rs`. -/
structure ExtendedKeyUsageExtension where
  critical : Bool
  id_kp_server_auth : Bool
  id_kp_client_auth : Bool
  id_kp_code_signing : Bool
  id_kp_email_protection : Bool
  id_kp_time_stamping : Bool
  id_kp_ocspsigning : Bool
  oids : List String
deriving DecidableEq, Repr

/-- `SubjectKeyIdentifierExtension` from `config.rs`. -/
structure SubjectKeyIdentifierExtension where
  critical : Bool
deriving DecidableEq, Repr

/-- `AuthorityKeyIdentifierExtension` from `config.rs`. -/
structure AuthorityKeyIdentifierExtension where
  critical : Bool
  key_id : Bool
  issuer : Bool
deriving DecidableEq, Repr

/-- `CertificatePolicy` from `config.rs`: the well-known policy names plus a
raw OID string variant. -/
inductive CertificatePolicy where
  | TcgDiceKpAttestInit
  | TcgDiceKpAttestLoc
  | TcgDiceKpAssertInit
  | TcgDiceKpAssertLoc
  | TcgDiceKpEca
  | TcgDiceKpIdentityInit
  | TcgDiceKpIdentityLoc
  | OanaPlatformIdentity
  | OanaRotCodeSigningDevelopment
  | OanaRotCodeSigningRelease
  | Oid (s : String)
deriving DecidableEq, Repr

/-- `CertificatePoliciesExtension` from `config.rs`. -/
structure CertificatePoliciesExtension where
  critical : Bool
  policies : List CertificatePolicy
deriving DecidableEq, Repr

/-- `X509Extensions` from `config.rs`. -/
inductive X509Extensions where
  | BasicConstraints (e : BasicConstraintsExtension)
  | KeyUsage (e : KeyUsageExtension)
  | SubjectKeyIdentifier (e : SubjectKeyIdentifierExtension)
  | AuthorityKeyIdentifier (e : AuthorityKeyIdentifierExtension)
  | ExtendedKeyUsage (e : ExtendedKeyUsageExtension)
  | CertificatePolicies (e : CertificatePoliciesExtension)
deriving DecidableEq, Repr

/-- `Certificate` from `config.rs`. -/
structure Certificate where
  name : String
  subject_entity : String
  subject_key : String
  issuer_entity : Option String
  issuer_certificate : Option String
  issuer_key : String
  digest_algorithm : Option DigestAlgorithm
  not_before : Option String
  not_after : String
  serial_number : String
  extensions : List X509Extensions
deriving DecidableEq, Repr

/-- `CertificateRequest` from `config.rs`. -/
structure CertificateRequest where
  name : String
  subject_entity : String
  subject_key : String
  digest_algorithm : Option DigestAlgorithm
deriving DecidableEq, Repr

/-- `Document` from `config.rs`: the decoded configuration. -/
structure Document where
  key_pairs : List KeyPair
  entities : List Entity
  certificates : List Certificate
  certificate_requests : List CertificateRequest
deriving DecidableEq, Repr

/-- The `ObjectIdentifier` of the x509 library, reduced to its dotted-decimal
string. -/
structure ObjectIdentifier where
  oid : String
deriving DecidableEq, Repr

/-- Split a character list on the dot character, keeping empty pieces. -/
def oidArcs : List Char → List Char → List (List Char)
  | [], cur => [cur.reverse]
  | c :: rest, cur =>
    if c = '.' then cur.reverse :: oidArcs rest [] else oidArcs rest (c :: cur)

/-- Modelled from the spec: the external OID parser
(`x509_cert::spki::ObjectIdentifier::new`, not part of this repository)
accepts a string exactly when it is "syntactically a valid dotted object
identifier": decimal arcs separated by dots. -/
def isValidOidString (s : String) : Bool :=
  let parts := oidArcs s.data []
  decide (2 ≤ parts.length) && parts.all (fun p => p.length != 0 && p.all Char.isDigit)

/-- Modelled from the spec: `ObjectIdentifier::new`, succeeding on valid
dotted-decimal OID strings and failing with an OID-format diagnostic
otherwise. -/
def ObjectIdentifier.new (s : String) : Except String ObjectIdentifier :=
  if isValidOidString s then Except.ok ⟨s⟩
  else Except.error ("OID format error: \"" ++ s ++ "\"")

/-- `PolicyInformation` from the x509 library: a resolved policy OID plus an
optional qualifier list (which this program never populates, so its element
type is irrelevant and modelled as `Unit`). -/
structure PolicyInformation where
  policy_identifier : ObjectIdentifier
  policy_qualifiers : Option Unit
deriving DecidableEq, Repr

/-- `TryFrom<&CertificatePolicy> for PolicyInformation` from `config.rs`
(lines 258-303): map each policy variant to its fixed OID, or parse the raw
string of an `Oid` variant. -/
def PolicyInformation.tryFrom (value : CertificatePolicy) : Except String PolicyInformation :=
  match (match value with
    | CertificatePolicy.TcgDiceKpIdentityInit => ObjectIdentifier.new "2.23.133.5.4.100.6"
    | CertificatePolicy.TcgDiceKpIdentityLoc => ObjectIdentifier.new "2.23.133.5.4.100.7"
    | CertificatePolicy.TcgDiceKpAttestInit => ObjectIdentifier.new "2.23.133.5.4.100.8"
    | CertificatePolicy.TcgDiceKpAttestLoc => ObjectIdentifier.new "2.23.133.5.4.100.9"
    | CertificatePolicy.TcgDiceKpAssertInit => ObjectIdentifier.new "2.23.133.5.4.100.10"
    | CertificatePolicy.TcgDiceKpAssertLoc => ObjectIdentifier.new "2.23.133.5.4.100.11"
    | CertificatePolicy.TcgDiceKpEca => ObjectIdentifier.new "2.23.133.5.4.100.12"
    | CertificatePolicy.OanaRotCodeSigningRelease => ObjectIdentifier.new "1.3.6.1.4.1.57551.1.1"
    | CertificatePolicy.OanaRotCodeSigningDevelopment => ObjectIdentifier.new "1.3.6.1.4.1.57551.1.2"
    | CertificatePolicy.OanaPlatformIdentity => ObjectIdentifier.new "1.3.6.1.4.1.57551.1.3"
    | CertificatePolicy.Oid s => ObjectIdentifier.new s) with
  | Except.error e => Except.error e
  | Except.ok oid => Except.ok { policy_identifier := oid, policy_qualifiers := none }

/-- Lines 318-333 of `load_and_validate`: walk the key pairs checking the
key-type count and name uniqueness, accumulating the set of names seen so
far (a list here; only membership is used).  Returns the full name set. -/
def checkKeyPairs : List KeyPair → List String → Except String (List String)
  | [], kp_names => Except.ok kp_names
  | kp :: rest, kp_names =>
    if kp.key_type.length ≠ 1 then
      Except.error ("key pairs must have exactly one key type. key pair \"" ++ kp.name ++
        "\" has " ++ toString kp.key_type.length ++ ".")
    else if kp_names.contains kp.name then
      Except.error ("key pairs must have unique names. \"" ++ kp.name ++
        "\" is used more than once.")
    else
      checkKeyPairs rest (kp.name :: kp_names)

/-- Lines 335-343 of `load_and_validate`: collect entity names, failing on a
duplicate. -/
def collectEntityNames : List Entity → List String → Except String (List String)
  | [], entity_names => Except.ok entity_names
  | entity :: rest, entity_names =>
    if entity_names.contains entity.name then
      Except.error ("entities must have unique names. \"" ++ entity.name ++
        "\" is used more than once.")
    else
      collectEntityNames rest (entity.name :: entity_names)

/-- Lines 345-355 of `load_and_validate`: collect all certificate names
before any reference is resolved, failing on a duplicate. -/
def collectCertNames : List Certificate → List String → Except String (List String)
  | [], cert_names => Except.ok cert_names
  | cert :: rest, cert_names =>
    if cert_names.contains cert.name then
      Except.error ("certificates must have unique names. \"" ++ cert.name ++
        "\" is used more than once.")
    else
      collectCertNames rest (cert.name :: cert_names)

/-- Lines 374-395 of `load_and_validate`: the `match` on
`(issuer_entity, issuer_certificate)`.  Note that, as in the source, the
issuer-entity and issuer-certificate "does not exist" messages format
`cert.issuer_key`, not the missing name. -/
def checkIssuerSelection (entity_names cert_names : List String) (cert : Certificate) :
    Except String Unit :=
  match cert.issuer_entity, cert.issuer_certificate with
  | none, none =>
    Except.error ("certificate \"" ++ cert.name ++
      "\" must specify either an issuer entity or certificate")
  | some _, some _ =>
    Except.error ("certificate \"" ++ cert.name ++
      "\" specifies both an issuer entity and certificate.  Only one may be specified.")
  | some entity, none =>
    if entity_names.contains entity then Except.ok ()
    else
      Except.error ("certificate \"" ++ cert.name ++ "\" issuer entity \"" ++
        cert.issuer_key ++ "\" does not exist")
  | none, some cert_name =>
    if cert_names.contains cert_name then Except.ok ()
    else
      Except.error ("certificate \"" ++ cert.name ++ "\" issuer certificate \"" ++
        cert.issuer_key ++ "\" does not exist")

/-- Lines 357-404 of `load_and_validate`: the per-certificate reference
checks, in source order.  Note that, as in the source, the subject-entity
"does not exist" message formats `cert.subject_key`, not
`cert.subject_entity`. -/
def checkCertificate (kp_names entity_names cert_names : List String) (cert : Certificate) :
    Except String Unit :=
  if ¬ entity_names.contains cert.subject_entity then
    Except.error ("certificate \"" ++ cert.name ++ "\" subject entity \"" ++
      cert.subject_key ++ "\" does not exist")
  else if ¬ kp_names.contains cert.subject_key then
    Except.error ("certificate \"" ++ cert.name ++ "\" subject key pair \"" ++
      cert.subject_key ++ "\" does not exist")
  else
    match checkIssuerSelection entity_names cert_names cert with
    | Except.error e => Except.error e
    | Except.ok () =>
      if ¬ kp_names.contains cert.issuer_key then
        Except.error ("certificate \"" ++ cert.name ++ "\" issuer key pair \"" ++
          cert.issuer_key ++ "\" does not exist")
      else
        Except.ok ()

/-- The loop at lines 357-404: check each certificate, stopping at the first
error. -/
def checkCertificates (kp_names entity_names cert_names : List String) :
    List Certificate → Except String Unit
  | [] => Except.ok ()
  | cert :: rest =>
    match checkCertificate kp_names entity_names cert_names cert with
    | Except.error e => Except.error e
    | Except.ok () => checkCertificates kp_names entity_names cert_names rest

/-- The checking phases of `load_and_validate` in source order: key pairs
(key-type count and uniqueness), entity names, certificate names, then the
per-certificate reference checks.  Only the three inspected collections are
consulted; `certificate_requests` never is. -/
def validateChecks (key_pairs : List KeyPair) (entities : List Entity)
    (certificates : List Certificate) : Except String Unit :=
  match checkKeyPairs key_pairs [] with
  | Except.error e => Except.error e
  | Except.ok kp_names =>
    match collectEntityNames entities [] with
    | Except.error e => Except.error e
    | Except.ok entity_names =>
      match collectCertNames certificates [] with
      | Except.error e => Except.error e
      | Except.ok cert_names =>
        checkCertificates kp_names entity_names cert_names certificates

/-- The post-parse portion of `load_and_validate` (lines 318-407): validate
the decoded document and return it unchanged, or fail with the first
violation. -/
def validate (doc : Document) : Except String Document :=
  match validateChecks doc.key_pairs doc.entities doc.certificates with
  | Except.error e => Except.error e
  | Except.ok _ => Except.ok doc

/-! ### Example documents used in the theorems below -/

/-- A key pair named `k` with exactly one key type. -/
def kpK : KeyPair := ⟨"k", [KeyType.P384]⟩

/-- An entity named `e`. -/
def entE : Entity := ⟨"e", "example", []⟩

/-- A self-signed certificate: subject entity `e`, subject key `k`, issuer
entity `e`, issuer key `k`. -/
def certSelf : Certificate :=
  ⟨"c", "e", "k", some "e", none, "k", none, none, "20301231235959Z", "1", []⟩

/-- The minimal valid document: one key pair, one entity, one self-signed
certificate. -/
def minimalDoc : Document := ⟨[kpK], [entE], [certSelf], []⟩

/-- The minimal document extended with a certificate request whose
`subject_entity` and `subject_key` name targets that do not exist. -/
def danglingReqDoc : Document :=
  ⟨[kpK], [entE], [certSelf], [⟨"r", "no-such-entity", "no-such-key", none⟩]⟩

/-- A document whose key pair, entity, and certificate all carry the same
name `s`. -/
def sharedNameDoc (s : String) : Document :=
  ⟨[⟨s, [KeyType.P384]⟩], [⟨s, "example", []⟩],
   [⟨s, s, s, some s, none, s, none, none, "20301231235959Z", "1", []⟩], []⟩

/-- Whether a policy-resolution result carries no policy qualifiers (an
error trivially carries none). -/
def noQualifiers : Except String PolicyInformation → Bool
  | Except.ok pi => pi.policy_qualifiers.isNone
  | Except.error _ => true

/-! ### Invariants of the checking phases -/

/-- When `checkKeyPairs` succeeds, every key pair it walked has exactly one
key type, the walked names are pairwise distinct, and none of them was
already in the accumulator. -/
theorem checkKeyPairs_ok_inv (kps : List KeyPair) :
    ∀ (seen out : List String), checkKeyPairs kps seen = Except.ok out →
      (∀ kp ∈ kps, kp.key_type.length = 1) ∧
      (kps.map KeyPair.name).Nodup ∧
      (∀ kp ∈ kps, kp.name ∉ seen) := by
  induction kps with
  | nil => intro seen out _; exact ⟨by simp, by simp, by simp⟩
  | cons kp rest ih =>
    intro seen out h
    rw [checkKeyPairs] at h
    split at h
    · exact absurd h (by simp)
    · split at h
      · exact absurd h (by simp)
      · rename_i hlen hdup
        have hlen1 : kp.key_type.length = 1 := not_not.mp hlen
        have hmem : kp.name ∉ seen := by
          simpa [List.contains] using hdup
        obtain ⟨ih1, ih2, ih3⟩ := ih (kp.name :: seen) out h
        refine ⟨?_, ?_, ?_⟩
        · intro kp' hkp'
          rcases List.mem_cons.mp hkp' with rfl | h'
          · exact hlen1
          · exact ih1 kp' h'
        · rw [List.map_cons, List.nodup_cons]
          refine ⟨?_, ih2⟩
          intro hin
          obtain ⟨kp', hkp', heq⟩ := List.mem_map.mp hin
          exact ih3 kp' hkp' (heq ▸ List.mem_cons_self _ _)
        · intro kp' hkp'
          rcases List.mem_cons.mp hkp' with rfl | h'
          · exact hmem
          · exact fun hm => ih3 kp' h' (List.mem_cons_of_mem _ hm)

/-- When `collectEntityNames` succeeds, the walked entity names are pairwise
distinct and none of them was already in the accumulator. -/
theorem collectEntityNames_ok_inv (ents : List Entity) :
    ∀ (seen out : List String), collectEntityNames ents seen = Except.ok out →
      (ents.map Entity.name).Nodup ∧ (∀ entity ∈ ents, entity.name ∉ seen) := by
  induction ents with
  | nil => intro seen out _; exact ⟨by simp, by simp⟩
  | cons entity rest ih =>
    intro seen out h
    rw [collectEntityNames] at h
    split at h
    · exact absurd h (by simp)
    · rename_i hdup
      have hmem : entity.name ∉ seen := by
        simpa [List.contains] using hdup
      obtain ⟨ih1, ih2⟩ := ih (entity.name :: seen) out h
      refine ⟨?_, ?_⟩
      · rw [List.map_cons, List.nodup_cons]
        refine ⟨?_, ih1⟩
        intro hin
        obtain ⟨e', he', heq⟩ := List.mem_map.mp hin
        exact ih2 e' he' (heq ▸ List.mem_cons_self _ _)
      · intro e' he'
        rcases List.mem_cons.mp he' with rfl | h'
        · exact hmem
        · exact fun hm => ih2 e' h' (List.mem_cons_of_mem _ hm)

/-- When `collectCertNames` succeeds, the walked certificate names are
pairwise distinct and none of them was already in the accumulator. -/
theorem collectCertNames_ok_inv (certs : List Certificate) :
    ∀ (seen out : List String), collectCertNames certs seen = Except.ok out →
      (certs.map Certificate.name).Nodup ∧ (∀ cert ∈ certs, cert.name ∉ seen) := by
  induction certs with
  | nil => intro seen out _; exact ⟨by simp, by simp⟩
  | cons cert rest ih =>
    intro seen out h
    rw [collectCertNames] at h
    split at h
    · exact absurd h (by simp)
    · rename_i hdup
      have hmem : cert.name ∉ seen := by
        simpa [List.contains] using hdup
      obtain ⟨ih1, ih2⟩ := ih (cert.name :: seen) out h
      refine ⟨?_, ?_⟩
      · rw [List.map_cons, List.nodup_cons]
        refine ⟨?_, ih1⟩
        intro hin
        obtain ⟨c', hc', heq⟩ := List.mem_map.mp hin
        exact ih2 c' hc' (heq ▸ List.mem_cons_self _ _)
      · intro c' hc'
        rcases List.mem_cons.mp hc' with rfl | h'
        · exact hmem
        · exact fun hm => ih2 c' h' (List.mem_cons_of_mem _ hm)

/-- The name set produced by a successful `collectCertNames` run contains
the accumulator and the name of every walked certificate. -/
theorem collectCertNames_ok_mem (certs : List Certificate) :
    ∀ (seen out : List String), collectCertNames certs seen = Except.ok out →
      ∀ x : String, (x ∈ seen ∨ ∃ c ∈ certs, c.name = x) → x ∈ out := by
  induction certs with
  | nil =>
    intro seen out h x hx
    rw [collectCertNames] at h
    cases h
    rcases hx with hx | ⟨c, hc, _⟩
    · exact hx
    · exact absurd hc (by simp)
  | cons cert rest ih =>
    intro seen out h x hx
    rw [collectCertNames] at h
    split at h
    · exact absurd h (by simp)
    · refine ih (cert.name :: seen) out h x ?_
      rcases hx with hx | ⟨c, hc, hcx⟩
      · exact Or.inl (List.mem_cons_of_mem _ hx)
      · rcases List.mem_cons.mp hc with rfl | h'
        · exact Or.inl (hcx ▸ List.mem_cons_self _ _)
        · exact Or.inr ⟨c, h', hcx⟩

/-- A successful `validateChecks` run certifies the key-type counts and the
per-kind name uniqueness. -/
theorem validateChecks_ok_inv (kps : List KeyPair) (ents : List Entity)
    (certs : List Certificate) (u : Unit)
    (h : validateChecks kps ents certs = Except.ok u) :
    (∀ kp ∈ kps, kp.key_type.length = 1) ∧
    (kps.map KeyPair.name).Nodup ∧
    (ents.map Entity.name).Nodup ∧
    (certs.map Certificate.name).Nodup := by
  rw [validateChecks] at h
  cases h1 : checkKeyPairs kps [] <;> rw [h1] at h
  · exact absurd h (by simp)
  cases h2 : collectEntityNames ents [] <;> rw [h2] at h
  · exact absurd h (by simp)
  cases h3 : collectCertNames certs [] <;> rw [h3] at h
  · exact absurd h (by simp)
  obtain ⟨hk1, hk2, -⟩ := checkKeyPairs_ok_inv kps [] _ h1
  obtain ⟨he1, -⟩ := collectEntityNames_ok_inv ents [] _ h2
  obtain ⟨hc1, -⟩ := collectCertNames_ok_inv certs [] _ h3
  exact ⟨hk1, hk2, he1, hc1⟩

/-- A successful `validateChecks` run decomposes into successful phases. -/
theorem validateChecks_ok_parts (kps : List KeyPair) (ents : List Entity)
    (certs : List Certificate) (u : Unit)
    (h : validateChecks kps ents certs = Except.ok u) :
    ∃ ns1 ns2 ns3, checkKeyPairs kps [] = Except.ok ns1 ∧
      collectEntityNames ents [] = Except.ok ns2 ∧
      collectCertNames certs [] = Except.ok ns3 ∧
      checkCertificates ns1 ns2 ns3 certs = Except.ok u := by
  rw [validateChecks] at h
  cases h1 : checkKeyPairs kps [] <;> rw [h1] at h
  · exact absurd h (by simp)
  cases h2 : collectEntityNames ents [] <;> rw [h2] at h
  · exact absurd h (by simp)
  cases h3 : collectCertNames certs [] <;> rw [h3] at h
  · exact absurd h (by simp)
  exact ⟨_, _, _, rfl, rfl, rfl, h⟩

/-- When the certificate loop succeeds, every certificate's own check
succeeded. -/
theorem checkCertificates_ok_each (kp_names entity_names cert_names : List String) :
    ∀ (certs : List Certificate) (u : Unit),
      checkCertificates kp_names entity_names cert_names certs = Except.ok u →
      ∀ c ∈ certs, checkCertificate kp_names entity_names cert_names c = Except.ok () := by
  intro certs
  induction certs with
  | nil => intro u _ c hc; exact absurd hc (by simp)
  | cons c0 rest ih =>
    intro u h c hc
    rw [checkCertificates] at h
    cases h0 : checkCertificate kp_names entity_names cert_names c0 <;> rw [h0] at h
    · exact absurd h (by simp)
    · rename_i a
      cases a
      rcases List.mem_cons.mp hc with rfl | h'
      · exact h0
      · exact ih u h c h'

/-- A document whose validation succeeds passed `validateChecks`. -/
theorem validate_isOk_inv (doc : Document) (h : (validate doc).isOk = true) :
    ∃ u, validateChecks doc.key_pairs doc.entities doc.certificates = Except.ok u := by
  rw [validate] at h
  cases h1 : validateChecks doc.key_pairs doc.entities doc.certificates <;> rw [h1] at h
  · simp [Except.isOk, Except.toBool] at h
  · exact ⟨_, rfl⟩

/-! ### Claim theorems -/

/-- C5: policy resolution maps every well-known `CertificatePolicy` variant
to its fixed documented OID (`TcgDiceKpAttestInit` to `2.23.133.5.4.100.8`
among them), passes the syntactically valid raw OID string `1.2.3` through
unchanged, fails on the malformed string `not-an-oid`, and every successful
resolution carries no policy qualifiers. -/
theorem policy_resolution_correct :
    PolicyInformation.tryFrom CertificatePolicy.TcgDiceKpIdentityInit
      = Except.ok ⟨⟨"2.23.133.5.4.100.6"⟩, none⟩ ∧
    PolicyInformation.tryFrom CertificatePolicy.TcgDiceKpIdentityLoc
      = Except.ok ⟨⟨"2.23.133.5.4.100.7"⟩, none⟩ ∧
    PolicyInformation.tryFrom CertificatePolicy.TcgDiceKpAttestInit
      = Except.ok ⟨⟨"2.23.133.5.4.100.8"⟩, none⟩ ∧
    PolicyInformation.tryFrom CertificatePolicy.TcgDiceKpAttestLoc
      = Except.ok ⟨⟨"2.23.133.5.4.100.9"⟩, none⟩ ∧
    PolicyInformation.tryFrom CertificatePolicy.TcgDiceKpAssertInit
      = Except.ok ⟨⟨"2.23.133.5.4.100.10"⟩, none⟩ ∧
    PolicyInformation.tryFrom CertificatePolicy.TcgDiceKpAssertLoc
      = Except.ok ⟨⟨"2.23.133.5.4.100.11"⟩, none⟩ ∧
    PolicyInformation.tryFrom CertificatePolicy.TcgDiceKpEca
      = Except.ok ⟨⟨"2.23.133.5.4.100.12"⟩, none⟩ ∧
    PolicyInformation.tryFrom CertificatePolicy.OanaRotCodeSigningRelease
      = Except.ok ⟨⟨"1.3.6.1.4.1.57551.1.1"⟩, none⟩ ∧
    PolicyInformation.tryFrom CertificatePolicy.OanaRotCodeSigningDevelopment
      = Except.ok ⟨⟨"1.3.6.1.4.1.57551.1.2"⟩, none⟩ ∧
    PolicyInformation.tryFrom CertificatePolicy.OanaPlatformIdentity
      = Except.ok ⟨⟨"1.3.6.1.4.1.57551.1.3"⟩, none⟩ ∧
    PolicyInformation.tryFrom (CertificatePolicy.Oid "1.2.3")
      = Except.ok ⟨⟨"1.2.3"⟩, none⟩ ∧
    (PolicyInformation.tryFrom (CertificatePolicy.Oid "not-an-oid")).isOk = false ∧
    (∀ p : CertificatePolicy, noQualifiers (PolicyInformation.tryFrom p) = true) := by
  refine ⟨rfl, rfl, rfl, rfl, rfl, rfl, rfl, rfl, rfl, rfl, rfl, rfl, ?_⟩
  intro p
  cases p with
  | Oid s =>
    simp only [PolicyInformation.tryFrom]
    cases h : ObjectIdentifier.new s <;> simp [h, noQualifiers]
  | _ => rfl

/-- C7: a document that passes validation is returned structurally
unchanged, and validating the result again succeeds with the same
structure; the minimal document passes unchanged. -/
theorem validate_pure_idempotent :
    (∀ doc out : Document, validate doc = Except.ok out →
      out = doc ∧ validate out = Except.ok out) ∧
    validate minimalDoc = Except.ok minimalDoc := by
  constructor
  · intro doc out h
    have hdoc : out = doc := by
      unfold validate at h
      cases h1 : validateChecks doc.key_pairs doc.entities doc.certificates <;> rw [h1] at h
      · simp at h
      · simp at h
        exact h.symm
    subst hdoc
    exact ⟨rfl, h⟩
  · rfl

/-- C7 witness: the general theorem applied to the minimal document. -/
theorem validate_pure_idempotent_witness :
    minimalDoc = minimalDoc ∧ validate minimalDoc = Except.ok minimalDoc :=
  validate_pure_idempotent.1 minimalDoc minimalDoc (by rfl)

/-- C9: certificate requests are exempt from validation: replacing the
request list of any document (even with requests whose subject entity and
subject key do not exist) never changes whether validation succeeds, and a
concrete document with dangling requests validates. -/
theorem cert_requests_not_validated :
    (∀ (doc : Document) (reqs : List CertificateRequest),
      (validate { doc with certificate_requests := reqs }).isOk = (validate doc).isOk) ∧
    validate danglingReqDoc = Except.ok danglingReqDoc := by
  constructor
  · intro doc reqs
    show (match validateChecks doc.key_pairs doc.entities doc.certificates with
      | Except.error e => Except.error e
      | Except.ok _ => Except.ok { doc with certificate_requests := reqs }).isOk
        = (validate doc).isOk
    unfold validate
    cases validateChecks doc.key_pairs doc.entities doc.certificates with
    | error e => rfl
    | ok u => rfl
  · rfl

/-- C8: name uniqueness is per kind: for every name `s`, a document whose
key pair, entity, and certificate all carry the name `s` validates without
any duplicate-name error. -/
theorem per_kind_namespaces (s : String) :
    validate (sharedNameDoc s) = Except.ok (sharedNameDoc s) := by
  unfold validate sharedNameDoc
  simp [validateChecks, checkKeyPairs, collectEntityNames, collectCertNames,
    checkCertificates, checkCertificate, checkIssuerSelection, List.contains]

/-- Certificate `A`, issued by entity `e`; declared after `B` in
`fwdRefDoc`. -/
def certA : Certificate :=
  ⟨"A", "e", "k", some "e", none, "k", none, none, "20301231235959Z", "1", []⟩

/-- Certificate `B`, whose `issuer_certificate` names `A`. -/
def certB : Certificate :=
  ⟨"B", "e", "k", none, some "A", "k", none, none, "20301231235959Z", "2", []⟩

/-- A document where `B` (issued by certificate `A`) appears before `A` in
the certificate list. -/
def fwdRefDoc : Document := ⟨[kpK], [entE], [certB, certA], []⟩

/-- A document with two key pairs both named `a`. -/
def dupKpDoc : Document :=
  ⟨[⟨"a", [KeyType.P384]⟩, ⟨"a", [KeyType.Ed25519]⟩], [], [], []⟩

/-- A document whose only key pair has zero key types. -/
def zeroKtDoc : Document := ⟨[⟨"a", []⟩], [], [], []⟩

/-- A certificate whose `subject_entity` names the non-existent `ghost`. -/
def ghostSubjDoc : Document :=
  ⟨[kpK], [entE],
   [⟨"c", "ghost", "k", some "e", none, "k", none, none, "20301231235959Z", "1", []⟩], []⟩

/-- A certificate whose `issuer_entity` names the non-existent `ghost`. -/
def ghostIssEntDoc : Document :=
  ⟨[kpK], [entE],
   [⟨"c", "e", "k", some "ghost", none, "k", none, none, "20301231235959Z", "1", []⟩], []⟩

/-- A certificate whose `issuer_certificate` names the non-existent
`ghost`. -/
def ghostIssCertDoc : Document :=
  ⟨[kpK], [entE],
   [⟨"c", "e", "k", none, some "ghost", "k", none, none, "20301231235959Z", "1", []⟩], []⟩

/-- C3: forward references between certificates are legal: every name of a
certificate in the document is in the name set collected before any
reference is resolved (regardless of position), and the concrete document
where `B` (issued by certificate `A`) precedes `A` validates. -/
theorem forward_references_legal :
    (∀ (doc : Document) (cns : List String) (a : Certificate),
      collectCertNames doc.certificates [] = Except.ok cns →
      a ∈ doc.certificates →
      cns.contains a.name = true) ∧
    validate fwdRefDoc = Except.ok fwdRefDoc := by
  constructor
  · intro doc cns a h ha
    have hmem : a.name ∈ cns :=
      collectCertNames_ok_mem doc.certificates [] cns h a.name (Or.inr ⟨a, ha, rfl⟩)
    simpa [List.contains] using hmem
  · rfl

/-- C3 witness: the name-set property applied to `fwdRefDoc` and its
forward-referencing certificate `B`. -/
theorem forward_references_legal_witness :
    (["A", "B"] : List String).contains certB.name = true :=
  forward_references_legal.1 fwdRefDoc ["A", "B"] certB (by rfl)
    (by simp [fwdRefDoc])

/-- C4: duplicate names within a kind are rejected: a document with two
key pairs, two entities, or two certificates sharing a name never
validates; and whenever the duplicate check of the relevant phase reaches
the offender, the error is the duplicate-name message naming that
identifier. -/
theorem duplicate_names_rejected :
    (∀ doc : Document,
      (¬ (doc.key_pairs.map KeyPair.name).Nodup ∨
       ¬ (doc.entities.map Entity.name).Nodup ∨
       ¬ (doc.certificates.map Certificate.name).Nodup) →
      (validate doc).isOk = false) ∧
    (∀ (kp : KeyPair) (rest : List KeyPair) (seen : List String),
      kp.key_type.length = 1 → seen.contains kp.name = true →
      checkKeyPairs (kp :: rest) seen
        = Except.error ("key pairs must have unique names. \"" ++ kp.name ++
            "\" is used more than once.")) ∧
    (∀ (entity : Entity) (rest : List Entity) (seen : List String),
      seen.contains entity.name = true →
      collectEntityNames (entity :: rest) seen
        = Except.error ("entities must have unique names. \"" ++ entity.name ++
            "\" is used more than once.")) ∧
    (∀ (cert : Certificate) (rest : List Certificate) (seen : List String),
      seen.contains cert.name = true →
      collectCertNames (cert :: rest) seen
        = Except.error ("certificates must have unique names. \"" ++ cert.name ++
            "\" is used more than once.")) := by
  refine ⟨?_, ?_, ?_, ?_⟩
  · intro doc hdup
    cases hv : (validate doc).isOk
    · rfl
    · exfalso
      obtain ⟨u, hu⟩ := validate_isOk_inv doc hv
      obtain ⟨-, hk, he, hc⟩ :=
        validateChecks_ok_inv doc.key_pairs doc.entities doc.certificates u hu
      rcases hdup with h | h | h
      · exact h hk
      · exact h he
      · exact h hc
  · intro kp rest seen hlen hseen
    rw [checkKeyPairs]
    rw [if_neg (by omega), if_pos hseen]
  · intro entity rest seen hseen
    rw [collectEntityNames]
    rw [if_pos hseen]
  · intro cert rest seen hseen
    rw [collectCertNames]
    rw [if_pos hseen]

/-- C4 witness: a document with two key pairs named `a` fails validation,
and the key-pair phase reports the duplicate-name error naming `a`. -/
theorem duplicate_names_rejected_witness :
    (validate dupKpDoc).isOk = false ∧
    checkKeyPairs [⟨"a", [KeyType.Ed25519]⟩] ["a"]
      = Except.error "key pairs must have unique names. \"a\" is used more than once." := by
  constructor
  · exact duplicate_names_rejected.1 dupKpDoc (Or.inl (by simp [dupKpDoc]))
  · exact duplicate_names_rejected.2.1 ⟨"a", [KeyType.Ed25519]⟩ [] ["a"] (by rfl) (by rfl)

/-- C6: a key pair with zero or several key types blocks validation: a
document containing any such key pair never validates, the key-pair check
reports the count error naming the key pair and the observed count when it
reaches the offender, and a key pair with exactly one key type passes this
check. -/
theorem key_pair_key_type_count :
    (∀ (doc : Document) (kp : KeyPair), kp ∈ doc.key_pairs → kp.key_type.length ≠ 1 →
      (validate doc).isOk = false) ∧
    (∀ (kp : KeyPair) (rest : List KeyPair) (seen : List String), kp.key_type.length ≠ 1 →
      checkKeyPairs (kp :: rest) seen
        = Except.error ("key pairs must have exactly one key type. key pair \"" ++ kp.name ++
            "\" has " ++ toString kp.key_type.length ++ ".")) ∧
    (∀ (kp : KeyPair) (rest : List KeyPair) (seen : List String),
      kp.key_type.length = 1 → seen.contains kp.name = false →
      checkKeyPairs (kp :: rest) seen = checkKeyPairs rest (kp.name :: seen)) := by
  refine ⟨?_, ?_, ?_⟩
  · intro doc kp hkp hlen
    cases hv : (validate doc).isOk
    · rfl
    · exfalso
      obtain ⟨u, hu⟩ := validate_isOk_inv doc hv
      obtain ⟨hcount, -, -, -⟩ :=
        validateChecks_ok_inv doc.key_pairs doc.entities doc.certificates u hu
      exact hlen (hcount kp hkp)
  · intro kp rest seen hlen
    rw [checkKeyPairs, if_pos hlen]
  · intro kp rest seen hlen hseen
    rw [checkKeyPairs]
    rw [if_neg (by omega), if_neg (by simpa [List.contains] using hseen)]

/-- C6 witness: the document whose only key pair has zero key types fails
validation, the count error names it, and a one-key-type key pair passes
the check. -/
theorem key_pair_key_type_count_witness :
    (validate zeroKtDoc).isOk = false ∧
    checkKeyPairs [⟨"a", []⟩] []
      = Except.error "key pairs must have exactly one key type. key pair \"a\" has 0." ∧
    checkKeyPairs [⟨"k", [KeyType.P384]⟩] [] = checkKeyPairs [] ["k"] := by
  refine ⟨?_, ?_, ?_⟩
  · exact key_pair_key_type_count.1 zeroKtDoc ⟨"a", []⟩ (by simp [zeroKtDoc]) (by decide)
  · exact key_pair_key_type_count.2.1 ⟨"a", []⟩ [] [] (by decide)
  · exact key_pair_key_type_count.2.2 ⟨"k", [KeyType.P384]⟩ [] [] (by rfl) (by rfl)

/-- C2 (code bug): each missing-reference error is supposed to name the
absent target, but for a missing `subject_entity`, `issuer_entity`, or
`issuer_certificate` the code formats `subject_key` (respectively
`issuer_key`) instead: with the absent name `ghost`, the emitted messages
name `k`. -/
theorem missing_reference_message_wrong_name :
    validate ghostSubjDoc
      = Except.error "certificate \"c\" subject entity \"k\" does not exist" ∧
    validate ghostIssEntDoc
      = Except.error "certificate \"c\" issuer entity \"k\" does not exist" ∧
    validate ghostIssCertDoc
      = Except.error "certificate \"c\" issuer certificate \"k\" does not exist" ∧
    ("certificate \"c\" subject entity \"k\" does not exist" : String)
      ≠ "certificate \"c\" subject entity \"ghost\" does not exist" := by
  exact ⟨rfl, rfl, rfl, by decide⟩

/-- A certificate with neither `issuer_entity` nor `issuer_certificate`. -/
def certNoIssuer : Certificate :=
  ⟨"c", "e", "k", none, none, "k", none, none, "20301231235959Z", "1", []⟩

/-- A certificate carrying both an `issuer_entity` and an
`issuer_certificate`. -/
def certBothIssuers : Certificate :=
  ⟨"c", "e", "k", some "e", some "c", "k", none, none, "20301231235959Z", "1", []⟩

/-- A document containing `certBothIssuers`. -/
def bothIssuerDoc : Document := ⟨[kpK], [entE], [certBothIssuers], []⟩

/-- C1: exactly one of `issuer_entity` / `issuer_certificate` is required:
a document with a certificate carrying zero or two issuer fields never
validates; for a certificate whose subject checks pass, both absent and
both present fail with their own issuer-selection errors, with exactly one
present the check proceeds to that issuer reference (then the issuer key),
and the two issuer-selection messages are distinct. -/
theorem issuer_selection_exclusivity :
    (∀ (doc : Document) (cert : Certificate), cert ∈ doc.certificates →
      ((cert.issuer_entity = none ∧ cert.issuer_certificate = none) ∨
       (cert.issuer_entity ≠ none ∧ cert.issuer_certificate ≠ none)) →
      (validate doc).isOk = false) ∧
    (∀ (kp_names entity_names cert_names : List String) (cert : Certificate),
      entity_names.contains cert.subject_entity = true →
      kp_names.contains cert.subject_key = true →
      (cert.issuer_entity = none → cert.issuer_certificate = none →
        checkCertificate kp_names entity_names cert_names cert
          = Except.error ("certificate \"" ++ cert.name ++
              "\" must specify either an issuer entity or certificate")) ∧
      (∀ e c, cert.issuer_entity = some e → cert.issuer_certificate = some c →
        checkCertificate kp_names entity_names cert_names cert
          = Except.error ("certificate \"" ++ cert.name ++
              "\" specifies both an issuer entity and certificate.  Only one may be specified.")) ∧
      (∀ e, cert.issuer_entity = some e → cert.issuer_certificate = none →
        checkCertificate kp_names entity_names cert_names cert
          = (if entity_names.contains e then
               (if kp_names.contains cert.issuer_key then Except.ok ()
                else Except.error ("certificate \"" ++ cert.name ++ "\" issuer key pair \"" ++
                  cert.issuer_key ++ "\" does not exist"))
             else Except.error ("certificate \"" ++ cert.name ++ "\" issuer entity \"" ++
               cert.issuer_key ++ "\" does not exist"))) ∧
      (∀ c, cert.issuer_entity = none → cert.issuer_certificate = some c →
        checkCertificate kp_names entity_names cert_names cert
          = (if cert_names.contains c then
               (if kp_names.contains cert.issuer_key then Except.ok ()
                else Except.error ("certificate \"" ++ cert.name ++ "\" issuer key pair \"" ++
                  cert.issuer_key ++ "\" does not exist"))
             else Except.error ("certificate \"" ++ cert.name ++ "\" issuer certificate \"" ++
               cert.issuer_key ++ "\" does not exist")))) ∧
    (∀ n : String,
      ("certificate \"" ++ n ++ "\" must specify either an issuer entity or certificate")
        ≠ ("certificate \"" ++ n ++
            "\" specifies both an issuer entity and certificate.  Only one may be specified.")) := by
  refine ⟨?_, ?_, ?_⟩
  · intro doc cert hc hbad
    cases hv : (validate doc).isOk
    · rfl
    · exfalso
      obtain ⟨u, hu⟩ := validate_isOk_inv doc hv
      obtain ⟨ns1, ns2, ns3, -, -, -, h4⟩ :=
        validateChecks_ok_parts doc.key_pairs doc.entities doc.certificates u hu
      have hok := checkCertificates_ok_each ns1 ns2 ns3 doc.certificates u h4 cert hc
      rw [checkCertificate] at hok
      split at hok
      · exact absurd hok (by simp)
      · split at hok
        · exact absurd hok (by simp)
        · cases hcs : checkIssuerSelection ns2 ns3 cert <;> rw [hcs] at hok
          · exact absurd hok (by simp)
          · rw [checkIssuerSelection] at hcs
            rcases hbad with ⟨hie, hic⟩ | ⟨hie, hic⟩
            · rw [hie, hic] at hcs
              exact absurd hcs (by simp)
            · rcases he : cert.issuer_entity with _ | e
              · exact hie he
              · rcases hc2 : cert.issuer_certificate with _ | c2
                · exact hic hc2
                · rw [he, hc2] at hcs
                  exact absurd hcs (by simp)
  · intro kp_names entity_names cert_names cert hse hsk
    simp [List.contains] at hse hsk
    refine ⟨?_, ?_, ?_, ?_⟩
    · intro hie hic
      unfold checkCertificate checkIssuerSelection
      simp [hse, hsk, hie, hic]
    · intro e c hie hic
      unfold checkCertificate checkIssuerSelection
      simp [hse, hsk, hie, hic]
    · intro e hie hic
      unfold checkCertificate checkIssuerSelection
      by_cases h3 : e ∈ entity_names <;>
        by_cases h4 : cert.issuer_key ∈ kp_names <;>
          simp [hse, hsk, hie, hic, h3, h4]
    · intro c hie hic
      unfold checkCertificate checkIssuerSelection
      by_cases h3 : c ∈ cert_names <;>
        by_cases h4 : cert.issuer_key ∈ kp_names <;>
          simp [hse, hsk, hie, hic, h3, h4]
  · intro n h
    have hd := congrArg String.data h
    simp only [String.data_append, List.append_assoc] at hd
    have h2 := List.append_cancel_left hd
    have h3 := List.append_cancel_left h2
    exact absurd h3 (by decide)

/-- C1 witness: a document whose certificate has both issuer fields fails
validation, and the check of a certificate with neither issuer field
(and resolving subject references) yields the both-absent error. -/
theorem issuer_selection_exclusivity_witness :
    (validate bothIssuerDoc).isOk = false ∧
    checkCertificate ["k"] ["e"] [] certNoIssuer
      = Except.error "certificate \"c\" must specify either an issuer entity or certificate" :=
  ⟨issuer_selection_exclusivity.1 bothIssuerDoc certBothIssuers
      (by simp [bothIssuerDoc])
      (Or.inr ⟨by simp [certBothIssuers], by simp [certBothIssuers]⟩),
   (issuer_selection_exclusivity.2.1 ["k"] ["e"] [] certNoIssuer (by rfl) (by rfl)).1 rfl rfl⟩

/-- The violations of one certificate's reference checks, listed in the
fixed source order: subject entity, subject key, issuer selection (and the
chosen issuer's existence), issuer key. -/
def certCheckErrors (kp_names entity_names cert_names : List String) (cert : Certificate) :
    List String :=
  (if entity_names.contains cert.subject_entity then []
   else ["certificate \"" ++ cert.name ++ "\" subject entity \"" ++
     cert.subject_key ++ "\" does not exist"]) ++
  (if kp_names.contains cert.subject_key then []
   else ["certificate \"" ++ cert.name ++ "\" subject key pair \"" ++
     cert.subject_key ++ "\" does not exist"]) ++
  (match cert.issuer_entity, cert.issuer_certificate with
   | none, none =>
     ["certificate \"" ++ cert.name ++ "\" must specify either an issuer entity or certificate"]
   | some _, some _ =>
     ["certificate \"" ++ cert.name ++
       "\" specifies both an issuer entity and certificate.  Only one may be specified."]
   | some e, none =>
     if entity_names.contains e then []
     else ["certificate \"" ++ cert.name ++ "\" issuer entity \"" ++
       cert.issuer_key ++ "\" does not exist"]
   | none, some c =>
     if cert_names.contains c then []
     else ["certificate \"" ++ cert.name ++ "\" issuer certificate \"" ++
       cert.issuer_key ++ "\" does not exist"]) ++
  (if kp_names.contains cert.issuer_key then []
   else ["certificate \"" ++ cert.name ++ "\" issuer key pair \"" ++
     cert.issuer_key ++ "\" does not exist"])

/-- C10: the per-certificate checks run in the fixed source order, so the
reported error is always the first entry of the violation list
`certCheckErrors`, whatever combination of rules the certificate breaks. -/
theorem checkCertificate_reports_first_error
    (kp_names entity_names cert_names : List String) (cert : Certificate) :
    checkCertificate kp_names entity_names cert_names cert
      = (match certCheckErrors kp_names entity_names cert_names cert with
         | [] => Except.ok ()
         | e :: _ => Except.error e) := by
  unfold checkCertificate certCheckErrors checkIssuerSelection
  by_cases h1 : cert.subject_entity ∈ entity_names <;> simp [h1]
  by_cases h2 : cert.subject_key ∈ kp_names <;> simp [h2]
  rcases hie : cert.issuer_entity with _ | e <;>
    rcases hic : cert.issuer_certificate with _ | c <;> simp [hie, hic]
  · by_cases h3 : c ∈ cert_names <;>
      by_cases h4 : cert.issuer_key ∈ kp_names <;> simp [h3, h4]
  · by_cases h3 : e ∈ entity_names <;>
      by_cases h4 : cert.issuer_key ∈ kp_names <;> simp [h3, h4]

end PkiPlayground
